import Mathlib

/-!
# Verification of the remote-Jupyter-server provider and the per-extension kernel wrapper

Shallow embedding of the two subsystems of this repository:

* `src/standalone/userJupyterServer/userServerUrlProvider.ts` — the URI codec
  (`parseUri`, `getBaseJupyterUrl`, `parseUserUriAndGetValidationError`), the
  server store (`NewStorage`), the insecure-connection gate
  (`SecureConnectionValidator`) and the URL-capture workflow
  (`captureRemoteJupyterUrl`);
* `src/standalone/api/kernels/kernel.ts` — the per-extension execution wrapper
  (`executeCodeInternal`, `handleChatOutput`).

JavaScript strings are embedded as Lean `String`; the handful of
`String.prototype` operations the source uses (`trim`, `toLowerCase`,
`indexOf`, `substring`, `startsWith`, `endsWith`) are defined below on the
character list so that every definition is executable.  The WHATWG `new URL`
primitive is embedded for absolute `http:`/`https:` URLs (the only scheme
family the source accepts); parse failure models the `TypeError` the platform
throws.  Asynchronous code is embedded by explicit state passing, promise
chains by sequential application in chaining order, and user prompts /
network calls by scripted oracles consumed in call order.
-/

/-! ## JavaScript string primitives -/

/-- JavaScript `String.prototype.indexOf` on character lists: index of the first
occurrence of `pat`, or `none`. -/
def jsIndexOfAux (pat : List Char) : List Char → Nat → Option Nat
  | [], i => if pat = [] then some i else none
  | c :: rest, i =>
    if pat.isPrefixOf (c :: rest) then some i else jsIndexOfAux pat rest (i + 1)

/-- JavaScript `s.indexOf(pat)` returning `none` instead of `-1`. -/
def jsIndexOf (s pat : String) : Option Nat :=
  jsIndexOfAux pat.data s.data 0

/-- JavaScript `s.includes(pat)`. -/
def jsContains (s pat : String) : Bool :=
  (jsIndexOf s pat).isSome

/-- JavaScript `s.substring(0, n)`. -/
def jsTake (s : String) (n : Nat) : String :=
  ⟨s.data.take n⟩

/-- JavaScript `s.substring(n)`. -/
def jsDrop (s : String) (n : Nat) : String :=
  ⟨s.data.drop n⟩

/-- JavaScript `s.trim()`. -/
def jsTrim (s : String) : String :=
  ⟨(s.data.dropWhile Char.isWhitespace).reverse.dropWhile Char.isWhitespace |>.reverse⟩

/-- JavaScript `s.toLowerCase()` (ASCII, which is all the source compares). -/
def jsToLower (s : String) : String :=
  ⟨s.data.map Char.toLower⟩

/-- JavaScript `s.startsWith(pat)`. -/
def jsStartsWith (s pat : String) : Bool :=
  pat.data.isPrefixOf s.data

/-- JavaScript `s.endsWith(pat)`. -/
def jsEndsWith (s pat : String) : Bool :=
  pat.data.isSuffixOf s.data

/-- Split `s` at the first occurrence of `pat`: the part before and the part
after the separator. -/
def jsSplitAtFirst (s pat : String) : Option (String × String) :=
  (jsIndexOf s pat).map fun i => (jsTake s i, jsDrop s (i + pat.data.length))

/-! ## The WHATWG `new URL` primitive

Embedded for absolute `http:`/`https:` URLs, the only scheme family the
source ever feeds it (every other input is rejected with a thrown
`TypeError`, embedded as `none`).  The fields are the ones the source reads:
`protocol` (with the trailing colon, lower-cased as the platform does),
`host` (`hostname:port`), `hostname`, `pathname` (always starting with `/`,
defaulting to `/`), and `search` (with the leading `?`, or empty). -/

structure JsURL where
  protocol : String
  host : String
  hostname : String
  pathname : String
  search : String
deriving DecidableEq, Repr

def parseURL (s : String) : Option JsURL :=
  match jsSplitAtFirst s "://" with
  | none => none
  | some (scheme, rest) =>
    let scheme := jsToLower scheme
    if scheme = "http" ∨ scheme = "https" then
      let hostChars := rest.data.takeWhile fun c => ¬(c = '/' ∨ c = '?' ∨ c = '#')
      let more := rest.data.drop hostChars.length
      if hostChars = [] then none
      else
        let host : String := ⟨hostChars⟩
        let hostname : String :=
          match jsSplitAtFirst host ":" with
          | some (h, _) => h
          | none => host
        let pathname : List Char :=
          match more with
          | '/' :: _ => more.takeWhile fun c => ¬(c = '?' ∨ c = '#')
          | _ => ['/']
        let searchPart : List Char :=
          (more.drop ((more.takeWhile fun c => ¬(c = '?' ∨ c = '#')).length)).takeWhile
            fun c => ¬(c = '#')
        let search : List Char := match more with
          | '/' :: _ => searchPart
          | '?' :: _ => more.takeWhile fun c => ¬(c = '#')
          | _ => []
      some ⟨scheme ++ ":", host, hostname, ⟨pathname⟩, ⟨search⟩⟩
    else none

/-- JavaScript `"a&b=c".split(sep)` keeping empty segments, as JavaScript does. -/
def jsSplitChar (sep : Char) : List Char → List Char → List (List Char)
  | [], acc => [acc.reverse]
  | c :: rest, acc =>
    if c = sep then acc.reverse :: jsSplitChar sep rest []
    else jsSplitChar sep rest (c :: acc)

/-- JavaScript `url.searchParams.get(key)`: first value of `key` in the query string
(`none` embeds JavaScript `null`). -/
def searchParamGet (search key : String) : Option String :=
  let q := if jsStartsWith search "?" then jsDrop search 1 else search
  (jsSplitChar '&' q.data []).filterMap (fun kv =>
    match jsSplitAtFirst ⟨kv⟩ "=" with
    | some (k, v) => if k = key then some v else none
    | none => if (⟨kv⟩ : String) = key then some "" else none)
  |>.head?

/-! ## The credential/URI codec (`parseUri`, `getBaseJupyterUrl`) -/

/-- Record `IJupyterServerUri` restricted to the fields the verified code reads and
writes (`authorizationHeader` and `mappedRemoteNotebookDir` are carried
opaquely by the source and are elided). -/
structure IJupyterServerUri where
  baseUrl : String
  token : String
  displayName : String
deriving DecidableEq, Repr

/-- Modelled from the spec: `Identifiers.REMOTE_URI`, the reserved prefix of
internally-crafted sentinel URIs (defined in `platform/common/constants`,
which is not part of the verified sources); `parseUri` rejects inputs that
start with it. -/
def REMOTE_URI : String := "https://remote/"

/-- Embedding of `parseUri` from `userServerUrlProvider.ts` (lines 876–900). -/
def parseUri (uri : String) (displayName : String := "") : Option IJupyterServerUri :=
  if jsStartsWith uri REMOTE_URI then none
  else
    match parseURL uri with
    | none => none
    | some url =>
      let baseUrl :=
        url.protocol ++ "//" ++ url.host ++
          (if url.pathname = "/lab" ∨ url.pathname = "/tree" then "" else url.pathname)
      some
        { baseUrl := baseUrl
          token := (searchParamGet url.search "token").getD ""
          displayName := if displayName = "" then url.hostname else displayName }

/-- The fetch primitive handed to `getBaseJupyterUrl`: given the request URL,
either throws (`Except.error`) or returns the `Location` response header
(`none` embeds a missing header). -/
def Fetcher := String → Except Unit (Option String)

/-- Line 754 of `getBaseJupyterUrl`:
`url = parseUri(url, '')?.baseUrl || url`. -/
def strippedBase (url : String) : String :=
  ((parseUri url "").map IJupyterServerUri.baseUrl).getD url

/-- Line 759 of `getBaseJupyterUrl`: the request URL with any `token=`
fragment dropped
(`url.indexOf('token=') > 0 ? url.substring(0, url.indexOf('token=')) : url`). -/
def urlWithoutTokenOf (url1 : String) : String :=
  match jsIndexOf url1 "token=" with
  | some i => if i > 0 then jsTake url1 i else url1
  | none => url1

/-- Embedding of `getBaseJupyterUrl` from `userServerUrlProvider.ts` (lines 741–769): strip
`/lab`·`/tree` via `parseUri`; if the path is already `/` return without a
network call; otherwise drop any `token=` fragment, issue a manual-redirect
GET and, when the `Location` header contains `login?`, return its prefix;
every failure is swallowed into `none` (`undefined`). -/
def getBaseJupyterUrl (url : String) (fetcher : Fetcher) : Option String :=
  let url1 := strippedBase url
  match parseURL url1 with
  | none => none
  | some u =>
    if u.pathname = "/" then some url1
    else
      match fetcher (urlWithoutTokenOf url1) with
      | .error _ => none
      | .ok none => none
      | .ok (some loginPage) =>
        match jsIndexOf loginPage "login?" with
        | some i => some (jsTake loginPage i)
        | none => none


/-! ## The server store (`NewStorage`)

`NewStorage` keeps an in-memory cache `servers?` (`none` = not yet loaded)
and an encrypted-storage payload under one key.  The payload is the
serialized `StorageItem[]`: `missing` embeds an absent/`undefined` value,
`items l` a JSON array (the source short-circuits on the literal string
`"[]"`, i.e. on `items []`, before parsing), and `corrupt` a string on which
`JSON.parse` throws.  `reads` counts `encryptedStorage.retrieve` calls.

Every mutation first performs a synchronous optimistic cache update and then
chains a closure onto `updatePromise`; the chain applies the closures one at
a time in chaining (FIFO) order, which the model embeds by sequential
application of the `...Queued` functions. -/

structure StorageItem where
  handle : String
  uri : String
  displayName : String
deriving DecidableEq, Repr

structure StoredServer where
  handle : String
  uri : String
  serverInfo : IJupyterServerUri
deriving DecidableEq, Repr

inductive StoragePayload where
  | missing
  | items (l : List StorageItem)
  | corrupt
deriving DecidableEq, Repr

structure StoreState where
  servers : Option (List StoredServer)
  payload : StoragePayload
  reads : Nat
deriving DecidableEq, Repr

/-- Embedding of `serverToStorageFormat` (lines 907–915). -/
def serverToStorageFormat (servers : List StoredServer) : List StorageItem :=
  servers.map fun s => ⟨s.handle, s.uri, s.serverInfo.displayName⟩

/-- Embedding of `storageFormatToServers` (lines 916–934): re-run `parseUri` per entry and
silently drop entries that fail to parse. -/
def storageFormatToServers (items : List StorageItem) : List StoredServer :=
  items.filterMap fun s => (parseUri s.uri s.displayName).map fun si => ⟨s.handle, s.uri, si⟩

/-- Embedding of `NewStorage.getServers` (lines 941–959): serve from cache unless
`ignoreCache`; otherwise retrieve, return `[]` on a missing payload, the
`"[]"` payload, or a parse failure (in those three cases without touching the
cache), and otherwise deserialize, cache and return. -/
def NewStorage.getServers (ignoreCache : Bool) (st : StoreState) :
    List StoredServer × StoreState :=
  match st.servers, ignoreCache with
  | some s, false => (s, st)
  | _, _ =>
    let st := { st with reads := st.reads + 1 }
    match st.payload with
    | .missing => ([], st)
    | .corrupt => ([], st)
    | .items l =>
      if l = [] then ([], st)
      else
        let servers := storageFormatToServers l
        (servers, { st with servers := some servers })

/-- The synchronous part of `NewStorage.add` (lines 962–964): if the cache is
loaded, drop any same-handle entry and append the new one. -/
def NewStorage.addOptimistic (server : StoredServer) (st : StoreState) : StoreState :=
  match st.servers with
  | some s =>
    { st with servers := some ((s.filter fun x => !decide (x.handle = server.handle)) ++ [server]) }
  | none => st

/-- The closure `NewStorage.add` chains onto `updatePromise` (lines 965–975):
reload ignoring the cache, append the new server, cache and persist the full
list. -/
def NewStorage.addQueued (server : StoredServer) (st : StoreState) : StoreState :=
  let (cur, st) := NewStorage.getServers true st
  let servers := cur ++ [server]
  { st with servers := some servers, payload := .items (serverToStorageFormat servers) }

/-- Embedding of `NewStorage.add` when no other mutation is in flight: optimistic update
followed by the queued reload-append-persist. -/
def NewStorage.add (server : StoredServer) (st : StoreState) : StoreState :=
  NewStorage.addQueued server (NewStorage.addOptimistic server st)

/-- The synchronous part of `NewStorage.remove` (lines 978–980). -/
def NewStorage.removeOptimistic (handle : String) (st : StoreState) : StoreState :=
  match st.servers with
  | some s => { st with servers := some (s.filter fun x => !decide (x.handle = handle)) }
  | none => st

/-- The closure `NewStorage.remove` chains onto `updatePromise`
(lines 981–991). -/
def NewStorage.removeQueued (handle : String) (st : StoreState) : StoreState :=
  let (cur, st) := NewStorage.getServers true st
  let servers := cur.filter fun x => !decide (x.handle = handle)
  { st with servers := some servers, payload := .items (serverToStorageFormat servers) }

/-- Embedding of `NewStorage.remove` when no other mutation is in flight. -/
def NewStorage.remove (handle : String) (st : StoreState) : StoreState :=
  NewStorage.removeQueued handle (NewStorage.removeOptimistic handle st)

/-- The synchronous part of `NewStorage.clear` (line 994). -/
def NewStorage.clearOptimistic (st : StoreState) : StoreState :=
  { st with servers := some [] }

/-- The closure `NewStorage.clear` chains onto `updatePromise`
(lines 995–1004): empty the cache again and persist an `undefined` payload. -/
def NewStorage.clearQueued (st : StoreState) : StoreState :=
  { st with servers := some [], payload := .missing }

/-- Embedding of `NewStorage.clear` when no other mutation is in flight. -/
def NewStorage.clear (st : StoreState) : StoreState :=
  NewStorage.clearQueued (NewStorage.clearOptimistic st)

/-- The store state before anything was persisted or loaded. -/
def StoreState.initial : StoreState := ⟨none, .missing, 0⟩


/-! ## The insecure-connection gate (`SecureConnectionValidator`) -/

/-- One scripted interaction with the insecure-connection quick pick: the
user accepts (with `yesSelected` saying whether the `Yes` item was selected),
presses the Back button (the deferred rejects with `InputFlowAction.back`),
or dismisses the picker (`onDidHide` rejects with `InputFlowAction.cancel`). -/
inductive GateAnswer where
  | accept (yesSelected : Bool)
  | back
  | dismiss
deriving DecidableEq, Repr

/-- Resolution of one `promptToUseInsecureConnections` call. -/
inductive GateResult where
  | proceed (b : Bool)
  | back
  | cancel
deriving DecidableEq, Repr

/-- Observable effect of one `promptToUseInsecureConnections` call: its
resolution, whether the quick pick was shown, the value of the persisted
`DataScienceAllowInsecureConnections` flag afterwards, and the unconsumed
rest of the interaction script. -/
structure GateCall where
  result : GateResult
  prompted : Bool
  flagAfter : Bool
  remaining : List GateAnswer
deriving DecidableEq, Repr

/-- Embedding of `SecureConnectionValidator.promptToUseInsecureConnections`
(lines 839–874): when the persisted flag is already `true`, resolve `true`
without showing the quick pick; otherwise show it and resolve the user's
interaction.  The source contains no write to the flag, which `flagAfter`
makes explicit.  `none` embeds a prompt the scripted user never answers. -/
def SecureConnectionValidator.promptToUseInsecureConnections
    (flag : Bool) (answers : List GateAnswer) : Option GateCall :=
  if flag then some ⟨.proceed true, false, flag, answers⟩
  else
    match answers with
    | [] => none
    | a :: rest =>
      match a with
      | .accept yes => some ⟨.proceed yes, true, flag, rest⟩
      | .back => some ⟨.back, true, flag, rest⟩
      | .dismiss => some ⟨.cancel, true, flag, rest⟩

/-! ## The URL-capture workflow (`captureRemoteJupyterUrl`)

The workflow's external collaborators (URL input box, JupyterHub detector,
password negotiator, connection validator, display-name input box) are
embedded as scripted oracles consumed in call order; an exhausted script
(`stuck`, surfacing as `none`) embeds a prompt the scripted user never
answers.  Exceptions used for navigation (`CancellationError`,
`InputFlowAction.back`, `InputFlowAction.cancel`) are embedded as values of
`ExtError` routed through `handleIterError`, the per-iteration `catch` of
the source's loop (lines 581–596). -/

/-- Workflow steps, the `Steps` union of line 310. -/
inductive Step where
  | getUrl
  | checkPasswords
  | checkInsecure
  | verifyConnection
  | getDisplayName
deriving DecidableEq, Repr

/-- Failure of an external collaborator call: the three navigation signals
(`CancellationError`, `InputFlowAction.back`, `InputFlowAction.cancel`), the
two certificate error classes, or any other error with its message. -/
inductive ExtError where
  | cancellation
  | back
  | cancel
  | selfCert
  | selfCertExpired
  | other (message : String)
deriving DecidableEq, Repr

/-- Result record of `JupyterPasswordConnect.getPasswordConnectionInfo`
restricted to the field the workflow branches on (the request headers are
carried opaquely and elided). -/
structure PasswordConnectionInfo where
  requiresPassword : Bool
deriving DecidableEq, Repr

/-- Modelled from the spec: localized message `DataScience.jupyterSelectURIInvalidURI`
(the localization table is not part of the verified sources).  Only the
identity of the message matters to the verified control flow. -/
def jupyterSelectURIInvalidURI : String := "The URI is invalid"

/-- Modelled from the spec: localized message
`DataScience.jupyterSelectURIMustBeHttpOrHttps`. -/
def jupyterSelectURIMustBeHttpOrHttps : String := "The URI must be http or https"

/-- Modelled from the spec: localized message
`DataScience.jupyterSelfCertFailErrorMessageOnly`. -/
def jupyterSelfCertFailErrorMessageOnly : String := "The server uses a self signed certificate"

/-- Modelled from the spec: localized message
`DataScience.jupyterSelfCertExpiredErrorMessageOnly`. -/
def jupyterSelfCertExpiredErrorMessageOnly : String := "The certificate of the server has expired"

/-- Modelled from the spec: localized message `DataScience.passwordFailure`. -/
def passwordFailureMessage : String := "The password could not be verified"

/-- Modelled from the spec: localized message
`DataScience.remoteJupyterConnectionFailedWithoutServerWithError` applied to
the raw error text (whose embedded URLs the source rewrites as markdown
links; the rewrite is carried opaquely).  Only identity and non-emptiness
matter to the verified control flow. -/
def remoteConnectionFailedMessage (error : String) : String :=
  "Failed to connect to the remote Jupyter Server: " ++ error

/-- Validation outcome of `parseUserUriAndGetValidationError`
(lines 722–738). -/
inductive UriValidation where
  | invalid (validationError : String)
  | valid (jupyterServerUri : IJupyterServerUri) (url : String)
deriving DecidableEq, Repr

/-- Embedding of the regex replace `value.trim().replace(/\/(lab|tree)(\??)$/, '')`
of line 728. -/
def stripLabTreeSuffix (s : String) : String :=
  if jsEndsWith s "/lab?" then jsTake s (s.data.length - 5)
  else if jsEndsWith s "/tree?" then jsTake s (s.data.length - 6)
  else if jsEndsWith s "/lab" then jsTake s (s.data.length - 4)
  else if jsEndsWith s "/tree" then jsTake s (s.data.length - 5)
  else s

/-- Embedding of `UserJupyterServerUriInput.parseUserUriAndGetValidationError`
(lines 722–738). -/
def parseUserUriAndGetValidationError (fetcher : Fetcher) (value : String) : UriValidation :=
  let uri := stripLabTreeSuffix (jsTrim value)
  match parseUri uri "" with
  | none => .invalid jupyterSelectURIInvalidURI
  | some jsu =>
    let jsu := { jsu with baseUrl := (getBaseJupyterUrl uri fetcher).getD jsu.baseUrl }
    if ¬jsStartsWith (jsToLower uri) "http:" ∧ ¬jsStartsWith (jsToLower uri) "https:" then
      .invalid jupyterSelectURIMustBeHttpOrHttps
    else .valid jsu uri

/-- Scripts of the workflow's external collaborators, consumed in call
order, plus the cancellation token and the persisted insecure-consent flag. -/
structure WorkflowEnv where
  cancelled : Bool
  fetcher : Fetcher
  gateFlag : Bool
  urlInputs : List (Except ExtError (String × IJupyterServerUri))
  hubChecks : List Bool
  passwordResults : List (Except ExtError PasswordConnectionInfo)
  insecureAnswers : List GateAnswer
  verifyResults : List (Except ExtError Unit)
  displayNameInputs : List (Except ExtError String)

/-- Mutable state of the `captureRemoteJupyterUrl` loop (lines 317–341). -/
structure WorkflowState where
  env : WorkflowEnv
  jupyterServerUri : IJupyterServerUri
  validationErrorMessage : String
  requiresPassword : Bool
  isInsecureConnection : Bool
  handleCounter : Nat
  handle : String
  nextStep : Step
  previousStep : Option Step
  url : String
  initialUrl : String
  initialUrlWasValid : Bool
  failedUrlPasswordCapture : Bool

/-- Terminal result of the workflow: the success path returning the freshly
generated handle together with the record passed to `NewStorage.add`
(lines 601–616), `InputFlowAction.back` to the caller, `InputFlowAction.cancel`,
or an exception propagating out of the function. -/
inductive WorkflowOutcome where
  | added (handle url : String) (serverInfo : IJupyterServerUri)
  | backToCaller
  | cancelled
  | threw
deriving DecidableEq, Repr

/-- Result of one iteration of the loop: terminate with an outcome, run
another iteration (`continue`), or wait forever on an exhausted oracle
script. -/
inductive IterResult where
  | done (outcome : WorkflowOutcome)
  | next (st : WorkflowState)
  | stuck

/-- Embedding of the per-iteration `catch` (lines 581–596): cancellation
signals exit the workflow, Back re-enters `previousStep` when one is
recorded and otherwise returns to the caller, and every other exception
propagates. -/
def handleIterError (st : WorkflowState) (e : ExtError) : IterResult :=
  match e with
  | .cancellation => .done .cancelled
  | .cancel => .done .cancelled
  | .back =>
    match st.previousStep with
    | none => .done .backToCaller
    | some p => .next { st with nextStep := p }
  | _ => .done .threw

/-- Embedding of the `token.isCancellationRequested` checkpoints placed
between the step blocks (lines 359, 443, 477, 559). -/
def checkpoint (st : WorkflowState) (k : WorkflowState → IterResult) : IterResult :=
  if st.env.cancelled then .done .cancelled else k st

/-- Embedding of the `Get Display Name` block (lines 563–580) followed by the
`break` and the success path after the loop (lines 598–616).  Reaching this
function with any other `nextStep` is unreachable in the source (the loop
would spin forever); the model returns `stuck`. -/
def stepGetDisplayName (st : WorkflowState) : IterResult :=
  if st.nextStep = .getDisplayName then
    let prev0 : Step :=
      if st.isInsecureConnection then .checkInsecure
      else if st.requiresPassword ∧ st.jupyterServerUri.token = "" then .checkPasswords
      else .getUrl
    let prev : Option Step :=
      if prev0 = .getUrl then
        if st.initialUrlWasValid ∧ ¬st.initialUrl = "" then none else some .getUrl
      else some prev0
    let st := { st with previousStep := prev }
    match parseURL st.jupyterServerUri.baseUrl with
    | none => .done .threw
    | some u =>
      let defaultName :=
        if st.jupyterServerUri.displayName = "" then u.hostname
        else st.jupyterServerUri.displayName
      match st.env.displayNameInputs with
      | [] => .stuck
      | r :: rest =>
        let st := { st with env := { st.env with displayNameInputs := rest } }
        match r with
        | .error e => handleIterError st e
        | .ok entered =>
          let name := if jsTrim entered = "" then defaultName else jsTrim entered
          .done (.added st.handle st.url { st.jupyterServerUri with displayName := name })
  else .stuck

/-- Embedding of the `Verify Connection` block (lines 481–558). -/
def stepVerify (st : WorkflowState) : IterResult :=
  if st.nextStep = .verifyConnection then
    let st := { st with nextStep := .getDisplayName }
    match st.env.verifyResults with
    | [] => .stuck
    | r :: rest =>
      let st := { st with env := { st.env with verifyResults := rest } }
      match r with
      | .ok _ => checkpoint st stepGetDisplayName
      | .error e =>
        if st.failedUrlPasswordCapture ∧ ¬st.validationErrorMessage = "" then
          .next { st with nextStep := .getUrl }
        else
          match e with
          | .cancellation => handleIterError st .cancellation
          | .back => handleIterError st .back
          | .cancel => handleIterError st .cancel
          | .selfCert =>
            .next { st with validationErrorMessage := jupyterSelfCertFailErrorMessageOnly,
                            nextStep := .getUrl }
          | .selfCertExpired =>
            .next { st with validationErrorMessage := jupyterSelfCertExpiredErrorMessageOnly,
                            nextStep := .getUrl }
          | .other msg =>
            if st.requiresPassword ∧ st.jupyterServerUri.token = "" then
              .next { st with validationErrorMessage := passwordFailureMessage,
                              nextStep := .checkPasswords }
            else
              .next { st with validationErrorMessage := remoteConnectionFailedMessage msg,
                              nextStep := .getUrl }
  else checkpoint st stepGetDisplayName

/-- Embedding of the `Check Insecure Connections` block (lines 447–476). -/
def stepCheckInsecure (st : WorkflowState) : IterResult :=
  if st.nextStep = .checkInsecure then
    let st := { st with nextStep := .verifyConnection }
    let prev0 : Step :=
      if st.requiresPassword ∧ st.jupyterServerUri.token = "" then .checkPasswords else .getUrl
    let prev : Option Step :=
      if prev0 = .getUrl then
        if st.initialUrlWasValid ∧ ¬st.initialUrl = "" then none else some .getUrl
      else some prev0
    let st := { st with previousStep := prev }
    if ¬st.requiresPassword ∧ st.jupyterServerUri.token = "" then
      match parseURL st.jupyterServerUri.baseUrl with
      | none => .done .threw
      | some u =>
        if jsToLower u.protocol = "http:" then
          let st := { st with isInsecureConnection := true }
          match SecureConnectionValidator.promptToUseInsecureConnections
              st.env.gateFlag st.env.insecureAnswers with
          | none => .stuck
          | some call =>
            let st := { st with env := { st.env with insecureAnswers := call.remaining,
                                                     gateFlag := call.flagAfter } }
            match call.result with
            | .back => handleIterError st .back
            | .cancel => handleIterError st .cancel
            | .proceed proceed =>
              if proceed then checkpoint st stepVerify
              else .done .cancelled
        else checkpoint st stepVerify
    else checkpoint st stepVerify
  else checkpoint st stepVerify

/-- Embedding of the `getPasswordConnectionInfo` call and its `catch`
(lines 384–441). -/
def runPasswordConnect (st : WorkflowState) : IterResult :=
  match st.env.passwordResults with
  | [] => .stuck
  | r :: rest =>
    let st := { st with env := { st.env with passwordResults := rest } }
    match r with
    | .ok info =>
      let st := { st with requiresPassword := info.requiresPassword,
                          failedUrlPasswordCapture := false }
      checkpoint st stepCheckInsecure
    | .error e =>
      let st := { st with failedUrlPasswordCapture := false }
      match e with
      | .cancellation => handleIterError st .cancellation
      | .back => handleIterError st .back
      | .cancel => handleIterError st .cancel
      | .selfCert => checkpoint st stepCheckInsecure
      | .selfCertExpired => checkpoint st stepCheckInsecure
      | .other msg =>
        let st := { st with validationErrorMessage := remoteConnectionFailedMessage msg }
        if 0 < st.jupyterServerUri.token.data.length ∧ jsToLower msg = "failed to fetch" then
          let st := { st with failedUrlPasswordCapture := true }
          checkpoint st stepCheckInsecure
        else .next { st with nextStep := .getUrl }

/-- Embedding of the `Check Passwords` block (lines 369–442): record the
previous step (escaping the flow when seeded with a valid URL), run the
JupyterHub detection when no token was supplied (a hub aborts the flow via a
thrown `CancellationError`), then negotiate the password. -/
def stepCheckPasswords (st : WorkflowState) : IterResult :=
  if st.nextStep = .checkPasswords then
    let st := { st with nextStep := .checkInsecure,
                        previousStep :=
                          if st.initialUrlWasValid ∧ ¬st.initialUrl = "" then none
                          else some .getUrl,
                        validationErrorMessage := "" }
    if st.jupyterServerUri.token = "" then
      match st.env.hubChecks with
      | [] => .stuck
      | isHub :: rest =>
        let st := { st with env := { st.env with hubChecks := rest } }
        if isHub then .done .cancelled else runPasswordConnect st
    else runPasswordConnect st
  else checkpoint st stepCheckInsecure

/-- Embedding of the `Get Url` block (lines 345–358). -/
def stepGetUrl (st : WorkflowState) : IterResult :=
  if st.nextStep = .getUrl then
    let st := { st with initialUrlWasValid := false, nextStep := .checkPasswords,
                        previousStep := none, validationErrorMessage := "" }
    match st.env.urlInputs with
    | [] => .stuck
    | r :: rest =>
      let st := { st with env := { st.env with urlInputs := rest } }
      match r with
      | .error e => handleIterError st e
      | .ok (url, jsu) =>
        checkpoint { st with jupyterServerUri := jsu, url := url } stepCheckPasswords
  else checkpoint st stepCheckPasswords

/-- One iteration of the `while (true)` loop (lines 342–597): generate a
fresh handle, then run through the five step blocks. -/
def workflowIterate (st : WorkflowState) : IterResult :=
  let st := { st with handle := "uuid-" ++ toString st.handleCounter,
                      handleCounter := st.handleCounter + 1 }
  stepGetUrl st

/-- Fuel-bounded driver of the loop; `none` embeds non-termination within
the given fuel or an exhausted oracle script. -/
def runWorkflowLoop : Nat → WorkflowState → Option WorkflowOutcome
  | 0, _ => none
  | fuel + 1, st =>
    match workflowIterate st with
    | .done o => some o
    | .next st => runWorkflowLoop fuel st
    | .stuck => none

/-- Embedding of `captureRemoteJupyterUrl` (lines 305–625): initialise the
session state, validate a pre-supplied URL when one is given (a valid one
seeds the flow at `Check Passwords`, an invalid one pre-populates the
validation message of the URL prompt), and drive the loop. -/
def captureRemoteJupyterUrl (env : WorkflowEnv) (initialUrl : String) (fuel : Nat) :
    Option WorkflowOutcome :=
  let base : WorkflowState :=
    { env := env
      jupyterServerUri := ⟨"", "", ""⟩
      validationErrorMessage := ""
      requiresPassword := false
      isInsecureConnection := false
      handleCounter := 0
      handle := ""
      nextStep := .getUrl
      previousStep := some .getUrl
      url := initialUrl
      initialUrl := initialUrl
      initialUrlWasValid := false
      failedUrlPasswordCapture := false }
  let st :=
    if initialUrl = "" then base
    else
      match parseUserUriAndGetValidationError env.fetcher initialUrl with
      | .invalid err => { base with validationErrorMessage := err, nextStep := .getUrl }
      | .valid jsu _ =>
        { base with initialUrlWasValid := true, jupyterServerUri := jsu,
                    nextStep := .checkPasswords }
  runWorkflowLoop fuel st

/-! ## The per-extension kernel wrapper (`kernel.ts`)

`executeCodeInternal` and `handleChatOutput` of `WrappedKernelPerExtension`
are embedded below.  The shared kernel-execution queue
(`kernelExecution.executeCode`) is an external collaborator; it is embedded
as a function from the submitted code to the finite stream of outputs it
produces.  The async-generator protocol is embedded by returning the list of
yielded outputs together with the error that terminated the stream, if any.
The execution-telemetry events (`sendApiExecTelemetry`) are recorded as the
list of their `failed` flags in emission order. -/

/-- Kernel status values of the `vscode.KernelStatus` union. -/
inductive KernelStatus where
  | unknown
  | starting
  | idle
  | busy
  | terminating
  | restarting
  | autorestarting
  | dead
deriving DecidableEq, Repr

/-- The connection facts of the wrapped kernel that `executeCodeInternal`
branches on: `kernel.disposed`, whether `kernel.session?.kernel` is present,
and `kernel.status`. -/
structure KernelConnState where
  disposed : Bool
  hasSessionKernel : Bool
  status : KernelStatus
deriving DecidableEq, Repr

/-- Modelled from the spec: the distinguished chat mime type (`ChatMime`
from `kernels/chat/generator`, which is not part of the verified sources). -/
def ChatMime : String := "application/vnd.jupyter.chat"

/-- One `{mime, data}` item of an output (`data` holds the decoded bytes). -/
structure OutputItem where
  mime : String
  data : String
deriving DecidableEq, Repr

/-- The `{id, function, dataIsNone}` record of the chat sub-protocol. -/
structure ChatMetadata where
  id : String
  function : String
  dataIsNone : Bool
deriving DecidableEq, Repr

/-- A `NotebookCellOutput` as the wrapper reads it.  The outer `Option` is
the `output.metadata` object itself (`output.metadata || {}` replaces a
missing one by `{}`); the inner `Option` is its `'metadata'` key, which
holds the chat record when present. -/
structure NotebookCellOutput where
  items : List OutputItem
  metadata : Option (Option ChatMetadata)
deriving DecidableEq, Repr

/-- Embedding of `hasChatOutput` (lines 351–353). -/
def hasChatOutput (output : NotebookCellOutput) : Bool :=
  output.items.any fun i => i.mime == ChatMime

/-- Embedding of `output.items.find((i) => i.mime === ChatMime)` of
line 310. -/
def chatItemOf (output : NotebookCellOutput) : Option OutputItem :=
  output.items.find? fun i => i.mime == ChatMime

/-- Failures `executeCodeInternal` and `handleChatOutput` can raise:
the three prelude rejections (lines 209–221), the unknown-chat-function
`Error` (line 325), and the `TypeError` raised by reading `.function` of an
`undefined` metadata record (line 320). -/
inductive ExecError where
  | kernelDisposed
  | kernelDeadOrTerminating
  | connectionNotAvailable
  | chatFunctionNotFound (name : String)
  | typeErrorUndefinedMetadata
deriving DecidableEq, Repr

/-- Message carried by each failure, as built at its `throw` site (the
`TypeError` message is the platform's). -/
def ExecError.message : ExecError → String
  | .kernelDisposed => "Kernel is disposed"
  | .kernelDeadOrTerminating => "Kernel is dead or terminating"
  | .connectionNotAvailable => "Kernel connection not available to execute 3rd party code"
  | .chatFunctionNotFound name => "Chat Function " ++ name ++ " not found"
  | .typeErrorUndefinedMetadata => "TypeError: Cannot read properties of undefined"

/-- The caller-supplied chat handler table (`handlers` of line 183), an
association list from function name to handler; a handler receives the
decoded payload (`none` when `dataIsNone`) and returns the result to inject
back (`none` embeds `undefined`). -/
def ChatHandlers := List (String × (Option String → Option String))

/-- Modelled from the spec: `generatePythonCodeToInvokeCallback` from
`kernels/chat/generator` (not part of the verified sources) builds the
python source that invokes kernel-side callback `id` with the handler's
result; the wrapper treats the generated string opaquely. -/
def generatePythonCodeToInvokeCallback (id : String) (result : Option String) : String :=
  "__jupyter_chat_invoke_callback(" ++ id ++ ", " ++ result.getD "None" ++ ")"

/-- The output-streaming loop shared by `executeCodeInternal`
(lines 276–297) and the recursive chat re-invocation of `handleChatOutput`
(lines 299–348): yield non-chat outputs; on a chat output read the
`{id, function, dataIsNone}` record from `(output.metadata || {})['metadata']`
(when the record is absent the `metadata.function` access of line 320 throws,
embedded as `typeErrorUndefinedMetadata`), look the function name up in the
handler table (an unknown name throws `chatFunctionNotFound`, line 325),
invoke the handler, and recursively stream the outputs of the injected
callback execution before continuing with the rest.  Returns the yielded
outputs paired with the error that terminated the stream, if any; `none`
embeds exhaustion of the recursion fuel. -/
def processOutputs (kexec : String → List NotebookCellOutput) (handlers : ChatHandlers) :
    Nat → List NotebookCellOutput → Option (List NotebookCellOutput × Option ExecError)
  | _, [] => some ([], none)
  | 0, _ :: _ => none
  | fuel + 1, output :: rest =>
    match chatItemOf output with
    | none =>
      (processOutputs kexec handlers fuel rest).map fun p => (output :: p.1, p.2)
    | some chatOutput =>
      match output.metadata.getD none with
      | none => some ([], some .typeErrorUndefinedMetadata)
      | some md =>
        match handlers.find? (fun h => h.1 == md.function) with
        | none => some ([], some (.chatFunctionNotFound md.function))
        | some handler =>
          let data := if md.dataIsNone then none else some chatOutput.data
          let result := handler.2 data
          let code := generatePythonCodeToInvokeCallback md.id result
          match processOutputs kexec handlers fuel (kexec code) with
          | none => none
          | some (ys, some e) => some (ys, some e)
          | some (ys, none) =>
            match processOutputs kexec handlers fuel rest with
            | none => none
            | some (zs, e) => some (ys ++ zs, e)

/-- Observable result of one `executeCodeInternal` call: the outputs yielded
to the caller, the error that terminated the stream (if any), and the
`failed` flags of the execution-telemetry events in emission order. -/
structure ExecRun where
  outputs : List NotebookCellOutput
  error : Option ExecError
  execTelemetryFailedFlags : List Bool
deriving DecidableEq, Repr

/-- Embedding of `executeCodeInternal` (lines 181–298).  The prelude rejects
a disposed kernel, then a missing live session (distinguishing a dead or
terminating kernel), each after emitting exactly one execution-telemetry
event with `failed = true`.  Otherwise the outputs of the shared queue are
streamed through `processOutputs`; the `finally` block's disposable then
emits exactly one execution-telemetry event whose `failed` property was
never set to `true` on this path. -/
def executeCodeInternal (k : KernelConnState) (kexec : String → List NotebookCellOutput)
    (handlers : ChatHandlers) (fuel : Nat) (code : String) : Option ExecRun :=
  if k.disposed then some ⟨[], some .kernelDisposed, [true]⟩
  else if ¬k.hasSessionKernel then
    if k.status = .dead ∨ k.status = .terminating then
      some ⟨[], some .kernelDeadOrTerminating, [true]⟩
    else some ⟨[], some .connectionNotAvailable, [true]⟩
  else
    match processOutputs kexec handlers fuel (kexec code) with
    | none => none
    | some (ys, e) => some ⟨ys, e, [false]⟩

/-! ## Concrete scenario data for the theorems below -/

/-- Items of a persisted payload (a `missing` or `corrupt` payload holds no
items). -/
def persistedItems : StoragePayload → List StorageItem
  | .items l => l
  | _ => []

/-- Number of entries carrying handle `h`. -/
def countByHandle (h : String) (l : List StorageItem) : Nat :=
  (l.filter fun i => i.handle == h).length

/-- Number of cached servers carrying handle `h`. -/
def countServersByHandle (h : String) (l : List StoredServer) : Nat :=
  (l.filter fun s => s.handle == h).length

/-- First `add` of the duplicate-handle scenario. -/
def serverH1first : StoredServer :=
  ⟨"h1", "http://localhost:8888/", ⟨"http://localhost:8888/", "", "localhost"⟩⟩

/-- Second `add` of the duplicate-handle scenario: same handle, new data. -/
def serverH1second : StoredServer :=
  ⟨"h1", "new", ⟨"http://new/", "", "remote"⟩⟩

/-- Server `A` of the concurrent-mutation witness. -/
def serverA : StoredServer := ⟨"a", "http://a.com/", ⟨"http://a.com/", "", "ay"⟩⟩

/-- Server `B` of the concurrent-mutation witness. -/
def serverB : StoredServer := ⟨"b", "http://b.com/", ⟨"http://b.com/", "", "bee"⟩⟩

/-- Scripted environment of the seeded insecure-HTTP workflow run: no token,
no password required, plain HTTP, consent granted, connection verified; the
display-name prompt is answered with Back first and then with `My Server`. -/
def insecureSeededEnv : WorkflowEnv :=
  { cancelled := false
    fetcher := fun _ => .error ()
    gateFlag := false
    urlInputs := []
    hubChecks := [false]
    passwordResults := [.ok ⟨false⟩]
    insecureAnswers := [.accept true, .accept true]
    verifyResults := [.ok (), .ok ()]
    displayNameInputs := [.error .back, .ok "My Server"] }

/-- An output carrying no chat item. -/
def plainOutput : NotebookCellOutput := ⟨[⟨"text/plain", "hello"⟩], none⟩

/-- A chat-mime output whose metadata names a function absent from the
handler table. -/
def chatOutputUnknown : NotebookCellOutput :=
  ⟨[⟨ChatMime, "payload"⟩], some (some ⟨"cb1", "unregistered", true⟩)⟩

/-- A chat-mime output whose metadata object lacks the `'metadata'` key. -/
def chatOutputNoMetadata : NotebookCellOutput := ⟨[⟨ChatMime, "payload"⟩], some none⟩

/-! ## Claim theorems -/

/-- C1 counterexample: starting from empty storage, `add` of a server with
handle `h1` followed by `add` of another server with the same handle `h1`
(uri `new`) leaves TWO entries for `h1` — the old one and the new one — in
the persisted list as well as in the in-memory cache once the serialized
write completes, refuting the claim that exactly one entry (the newer one)
remains: the queued persistence path reloads from storage and appends
without removing the same-handle entry. -/
theorem newStorage_add_same_handle_not_replaced :
    countByHandle "h1"
      (persistedItems
        (NewStorage.add serverH1second (NewStorage.add serverH1first StoreState.initial)).payload)
      = 2 ∧
    (NewStorage.add serverH1second (NewStorage.add serverH1first StoreState.initial)).servers =
      some [serverH1first, serverH1second] ∧
    countServersByHandle "h1" [serverH1first, serverH1second] = 2 := by
  decide

/-- C1 amended: after `add({handle:"h1",...})` followed by
`add({handle:"h1", uri:"new"})`, the in-memory cache holds exactly one entry
for `h1` — the newer one — only between the second call's synchronous
optimistic update and the completion of its queued write; once the queued
write completes, both the in-memory cache and the persisted list hold two
entries for handle `h1`, the old one followed by the new one, because the
persistence path appends to the reloaded list instead of replacing. -/
theorem newStorage_add_same_handle_appends :
    (NewStorage.addOptimistic serverH1second (NewStorage.add serverH1first StoreState.initial)).servers
      = some [serverH1second] ∧
    (NewStorage.add serverH1second (NewStorage.add serverH1first StoreState.initial)).payload =
      .items [⟨"h1", "http://localhost:8888/", "localhost"⟩, ⟨"h1", "new", "remote"⟩] ∧
    (NewStorage.add serverH1second (NewStorage.add serverH1first StoreState.initial)).servers =
      some [serverH1first, serverH1second] := by
  decide

/-- C2 counterexample: with the persisted flag `false`, a first
`promptToUseInsecureConnections` call whose prompt the user answers `Yes`
resolves `true` but leaves the flag `false`; the next call prompts again and
— the user now answering `No` — resolves `false`, refuting the claim that
every call after a granted consent resolves `true` without prompting. -/
theorem secureConnectionValidator_reprompts_after_yes :
    SecureConnectionValidator.promptToUseInsecureConnections false [.accept true, .accept false] =
      some ⟨.proceed true, true, false, [.accept false]⟩ ∧
    SecureConnectionValidator.promptToUseInsecureConnections false [.accept false] =
      some ⟨.proceed false, true, false, []⟩ := by
  decide

/-- C2 amended: `promptToUseInsecureConnections` auto-approves without
prompting exactly when the persisted flag is already `true`; the function
never writes the flag, so an in-process `Yes` answer does not make later
calls auto-approve — they prompt again unless the flag was set true by some
agent outside this class. -/
theorem secureConnectionValidator_flag_gates_prompt :
    (∀ answers, SecureConnectionValidator.promptToUseInsecureConnections true answers =
        some ⟨.proceed true, false, true, answers⟩) ∧
    (∀ flag answers call,
        SecureConnectionValidator.promptToUseInsecureConnections flag answers = some call →
        call.flagAfter = flag ∧ call.prompted = !flag) := by
  constructor
  · intro answers
    rfl
  · intro flag answers call h
    cases flag with
    | true =>
      simp only [SecureConnectionValidator.promptToUseInsecureConnections, if_pos] at h
      cases h
      exact ⟨rfl, rfl⟩
    | false =>
      simp only [SecureConnectionValidator.promptToUseInsecureConnections,
        Bool.false_eq_true, if_false] at h
      cases answers with
      | nil => cases h
      | cons a rest =>
        cases a <;> (cases h; exact ⟨rfl, rfl⟩)

/-- Witness for C2 amended at concrete inputs: a flagged call auto-approves
without prompting, and a call that returned shows an unchanged flag and a
prompt exactly when the flag was `false`. -/
theorem secureConnectionValidator_flag_gates_prompt_witness :
    SecureConnectionValidator.promptToUseInsecureConnections true [.accept false] =
      some ⟨.proceed true, false, true, [.accept false]⟩ ∧
    (⟨.proceed true, true, false, []⟩ : GateCall).flagAfter = false ∧
    (⟨.proceed true, true, false, []⟩ : GateCall).prompted = !false :=
  ⟨secureConnectionValidator_flag_gates_prompt.1 [.accept false],
   (secureConnectionValidator_flag_gates_prompt.2 false [.accept true]
      ⟨.proceed true, true, false, []⟩ (by decide)).1,
   (secureConnectionValidator_flag_gates_prompt.2 false [.accept true]
      ⟨.proceed true, true, false, []⟩ (by decide)).2⟩

/-- C3 counterexample: for the input `http://localhost:8888/tree?token=abc123`
the codec yields token `abc123` but base URL `http://localhost:8888` WITHOUT
the trailing slash (the `/tree` path is replaced by the empty string, not by
`/`), refuting the claimed base URL `http://localhost:8888/`. -/
theorem parseUri_tree_token_no_trailing_slash :
    parseUri "http://localhost:8888/tree?token=abc123" "" =
      some ⟨"http://localhost:8888", "abc123", "localhost"⟩ ∧
    ¬((parseUri "http://localhost:8888/tree?token=abc123" "").map IJupyterServerUri.baseUrl =
        some "http://localhost:8888/") := by
  decide

/-- C3 amended: for the input `http://localhost:8888/tree?token=abc123` the
codec yields base URL `http://localhost:8888` (no trailing slash) and token
`abc123`; and in the capture workflow seeded with that URL, with no password
required, the insecure-connection gate is skipped because the token is
non-empty — the seeded run completes successfully against an EMPTY
insecure-prompt script (a consulted gate would leave the run waiting on the
exhausted script). -/
theorem captureWorkflow_token_skips_insecure_gate :
    parseUri "http://localhost:8888/tree?token=abc123" "" =
      some ⟨"http://localhost:8888", "abc123", "localhost"⟩ ∧
    captureRemoteJupyterUrl
        { insecureSeededEnv with hubChecks := [], passwordResults := [.ok ⟨false⟩],
                                 insecureAnswers := [], verifyResults := [.ok ()],
                                 displayNameInputs := [.ok "My Server"] }
        "http://localhost:8888/tree?token=abc123" 5 =
      some (.added "uuid-0" "http://localhost:8888/tree?token=abc123"
        ⟨"http://localhost:8888", "abc123", "My Server"⟩) := by
  decide

/-- C4 counterexample: with a missing storage payload and an unloaded cache,
the first `getServers(false)` call reads storage once and returns the empty
list WITHOUT populating the cache, so the second call — with no intervening
mutation — performs a second storage read (the read counter reaches 2 where
the claim requires it to stay at 1). -/
theorem getServers_rereads_on_missing_payload :
    NewStorage.getServers false (NewStorage.getServers false StoreState.initial).2 =
      ([], ⟨none, .missing, 2⟩) ∧
    (NewStorage.getServers false StoreState.initial).2.reads = 1 ∧
    (NewStorage.getServers false StoreState.initial).1 = [] := by
  decide

/-- C4 amended: two `getServers(false)` calls with no intervening mutation
return the same result, and the second performs no storage read, whenever
the cache is populated — either already loaded, or loaded by the first call
from a payload that parses as a non-empty record array.  When the payload is
missing, unparseable, or the empty array, the cache is never populated:
every call performs a storage read, though each returns the empty list. -/
theorem getServers_cache_stability :
    (∀ st s, st.servers = some s → NewStorage.getServers false st = (s, st)) ∧
    (∀ st l, st.servers = none → st.payload = .items l → ¬l = [] →
      NewStorage.getServers false st =
        (storageFormatToServers l,
          ⟨some (storageFormatToServers l), .items l, st.reads + 1⟩) ∧
      NewStorage.getServers false
          ⟨some (storageFormatToServers l), .items l, st.reads + 1⟩ =
        (storageFormatToServers l,
          ⟨some (storageFormatToServers l), .items l, st.reads + 1⟩)) ∧
    (∀ st, st.servers = none →
      st.payload = .missing ∨ st.payload = .corrupt ∨ st.payload = .items [] →
      NewStorage.getServers false st = ([], ⟨none, st.payload, st.reads + 1⟩)) := by
  refine ⟨?_, ?_, ?_⟩
  · intro st s h
    simp [NewStorage.getServers, h]
  · intro st l hs hp hl
    obtain ⟨sv, pl, rd⟩ := st
    cases hs
    cases hp
    constructor
    · simp [NewStorage.getServers, hl]
    · simp [NewStorage.getServers]
  · intro st hs hp
    obtain ⟨sv, pl, rd⟩ := st
    cases hs
    rcases hp with h | h | h <;> (cases h; simp [NewStorage.getServers])

/-- Witness for C4 amended at concrete states: a loaded cache is served
without a read; a non-empty parseable payload is cached by the first call
and served by the second; a corrupt payload is re-read and yields the empty
list. -/
theorem getServers_cache_stability_witness :
    NewStorage.getServers false ⟨some [serverA], .missing, 3⟩ =
      ([serverA], ⟨some [serverA], .missing, 3⟩) ∧
    (NewStorage.getServers false ⟨none, .items [⟨"b", "http://b.com/", "bee"⟩], 5⟩ =
      (storageFormatToServers [⟨"b", "http://b.com/", "bee"⟩],
        ⟨some (storageFormatToServers [⟨"b", "http://b.com/", "bee"⟩]),
          .items [⟨"b", "http://b.com/", "bee"⟩], 6⟩) ∧
     NewStorage.getServers false
        ⟨some (storageFormatToServers [⟨"b", "http://b.com/", "bee"⟩]),
          .items [⟨"b", "http://b.com/", "bee"⟩], 6⟩ =
      (storageFormatToServers [⟨"b", "http://b.com/", "bee"⟩],
        ⟨some (storageFormatToServers [⟨"b", "http://b.com/", "bee"⟩]),
          .items [⟨"b", "http://b.com/", "bee"⟩], 6⟩)) ∧
    NewStorage.getServers false ⟨none, .corrupt, 0⟩ = ([], ⟨none, .corrupt, 1⟩) :=
  ⟨getServers_cache_stability.1 ⟨some [serverA], .missing, 3⟩ [serverA] rfl,
   getServers_cache_stability.2.1 ⟨none, .items [⟨"b", "http://b.com/", "bee"⟩], 5⟩
     [⟨"b", "http://b.com/", "bee"⟩] rfl rfl (by decide),
   getServers_cache_stability.2.2 ⟨none, .corrupt, 0⟩ rfl (Or.inr (Or.inl rfl))⟩

/-- Helper: a successful `parseUri` call with a non-empty display-name
argument returns that display name unchanged. -/
theorem parseUri_displayName_eq {u d : String} {si : IJupyterServerUri}
    (h : parseUri u d = some si) (hd : ¬d = "") : si.displayName = d := by
  unfold parseUri at h
  split at h
  · cases h
  · cases hurl : parseURL u with
    | none => rw [hurl] at h; cases h
    | some url =>
      rw [hurl] at h
      injection h with h
      subst h
      simp [hd]

/-- C5: for mutations `add(A)`, `add(B)`, `remove(A)` issued concurrently in
that program order from empty storage — the three synchronous optimistic
updates at call time followed by the three queued closures applied in FIFO
chaining order — the final persisted payload contains exactly the entry for
`B`, provided `A` and `B` have distinct handles and `B` is a well-formed
stored server (its uri parses and its display name is non-empty, as holds
for every server the capture workflow persists). -/
theorem concurrent_add_add_remove_fifo (A B : StoredServer) (si : IJupyterServerUri)
    (hhandle : ¬A.handle = B.handle)
    (hparse : parseUri B.uri B.serverInfo.displayName = some si)
    (hdn : ¬B.serverInfo.displayName = "") :
    (NewStorage.removeQueued A.handle
      (NewStorage.addQueued B
        (NewStorage.addQueued A
          (NewStorage.removeOptimistic A.handle
            (NewStorage.addOptimistic B
              (NewStorage.addOptimistic A StoreState.initial)))))).payload =
      .items [⟨B.handle, B.uri, B.serverInfo.displayName⟩] := by
  have hh2 : ¬B.handle = A.handle := fun e => hhandle e.symm
  have hdisp : si.displayName = B.serverInfo.displayName := parseUri_displayName_eq hparse hdn
  cases hA : parseUri A.uri A.serverInfo.displayName with
  | none =>
    simp [NewStorage.addOptimistic, NewStorage.removeOptimistic, StoreState.initial,
      NewStorage.addQueued, NewStorage.removeQueued, NewStorage.getServers,
      storageFormatToServers, serverToStorageFormat, hA, hparse, hh2, hdisp]
  | some siA =>
    cases hA2 : parseUri A.uri siA.displayName with
    | none =>
      simp [NewStorage.addOptimistic, NewStorage.removeOptimistic, StoreState.initial,
        NewStorage.addQueued, NewStorage.removeQueued, NewStorage.getServers,
        storageFormatToServers, serverToStorageFormat, hA, hA2, hparse, hh2, hdisp]
    | some siA2 =>
      simp [NewStorage.addOptimistic, NewStorage.removeOptimistic, StoreState.initial,
        NewStorage.addQueued, NewStorage.removeQueued, NewStorage.getServers,
        storageFormatToServers, serverToStorageFormat, hA, hA2, hparse, hh2, hdisp]

/-- Witness for C5 at the concrete servers `A = (a, http://a.com/)` and
`B = (b, http://b.com/)`. -/
theorem concurrent_add_add_remove_fifo_witness :
    ¬serverA.handle = serverB.handle ∧
    (NewStorage.removeQueued serverA.handle
      (NewStorage.addQueued serverB
        (NewStorage.addQueued serverA
          (NewStorage.removeOptimistic serverA.handle
            (NewStorage.addOptimistic serverB
              (NewStorage.addOptimistic serverA StoreState.initial)))))).payload =
      .items [⟨"b", "http://b.com/", "bee"⟩] :=
  ⟨by decide,
   concurrent_add_add_remove_fifo serverA serverB ⟨"http://b.com/", "", "bee"⟩
     (by decide) (by decide) (by decide)⟩

/-- C6: `getBaseJupyterUrl` behaviour.  (i) When the parsed-and-suffix-
stripped URL has path `/`, that URL is returned and the result does not
depend on the fetcher — no network call is made.  (ii) When even the
stripped URL does not parse, the thrown error is swallowed into `undefined`.
(iii) Otherwise the result depends on the fetcher only through its response
to the `token=`-stripped URL — the manual-redirect GET is issued on that
URL.  (iv) A fetch error is swallowed into `undefined`.  (v) When the
`Location` header contains `login?`, the substring before `login?` is
returned; in particular (vi) the input
`https://example.com:9999/lab/workspaces/x` with redirect Location
`https://example.com:9999/login?next=abc` yields
`https://example.com:9999/`. -/
theorem getBaseJupyterUrl_behaviour :
    (∀ url u f, parseURL (strippedBase url) = some u → u.pathname = "/" →
      getBaseJupyterUrl url f = some (strippedBase url)) ∧
    (∀ url f, parseURL (strippedBase url) = none → getBaseJupyterUrl url f = none) ∧
    (∀ url u f g, parseURL (strippedBase url) = some u → ¬u.pathname = "/" →
      f (urlWithoutTokenOf (strippedBase url)) = g (urlWithoutTokenOf (strippedBase url)) →
      getBaseJupyterUrl url f = getBaseJupyterUrl url g) ∧
    (∀ url u f, parseURL (strippedBase url) = some u → ¬u.pathname = "/" →
      f (urlWithoutTokenOf (strippedBase url)) = .error () →
      getBaseJupyterUrl url f = none) ∧
    (∀ url u f page i, parseURL (strippedBase url) = some u → ¬u.pathname = "/" →
      f (urlWithoutTokenOf (strippedBase url)) = .ok (some page) →
      jsIndexOf page "login?" = some i →
      getBaseJupyterUrl url f = some (jsTake page i)) ∧
    getBaseJupyterUrl "https://example.com:9999/lab/workspaces/x"
        (fun _ => .ok (some "https://example.com:9999/login?next=abc")) =
      some "https://example.com:9999/" := by
  refine ⟨?_, ?_, ?_, ?_, ?_, by decide⟩
  · intro url u f hp hpath
    simp [getBaseJupyterUrl, hp, hpath]
  · intro url f hp
    simp [getBaseJupyterUrl, hp]
  · intro url u f g hp hpath hfg
    simp only [getBaseJupyterUrl, hp, hpath, if_neg, hfg]
  · intro url u f hp hpath hf
    simp [getBaseJupyterUrl, hp, hpath, hf]
  · intro url u f page i hp hpath hf hi
    simp [getBaseJupyterUrl, hp, hpath, hf, hi]

/-- Witness for C6 at concrete inputs: a root-path URL is returned under a
throwing fetcher (no network call), a non-URL input yields `undefined`, a
deep-path URL yields `undefined` under a throwing fetcher, and the scenario
redirect yields the base. -/
theorem getBaseJupyterUrl_behaviour_witness :
    getBaseJupyterUrl "http://x.com/" (fun _ => .error ()) = some "http://x.com/" ∧
    getBaseJupyterUrl "notaurl" (fun _ => .error ()) = none ∧
    getBaseJupyterUrl "https://example.com/x" (fun _ => .error ()) = none ∧
    getBaseJupyterUrl "https://example.com:9999/lab/workspaces/x"
        (fun _ => .ok (some "https://example.com:9999/login?next=abc")) =
      some (jsTake "https://example.com:9999/login?next=abc" 25) :=
  ⟨getBaseJupyterUrl_behaviour.1 "http://x.com/" ⟨"http:", "x.com", "x.com", "/", ""⟩
     (fun _ => .error ()) (by decide) (by decide),
   getBaseJupyterUrl_behaviour.2.1 "notaurl" (fun _ => .error ()) (by decide),
   getBaseJupyterUrl_behaviour.2.2.2.1 "https://example.com/x"
     ⟨"https:", "example.com", "example.com", "/x", ""⟩ (fun _ => .error ())
     (by decide) (by decide) rfl,
   getBaseJupyterUrl_behaviour.2.2.2.2.1 "https://example.com:9999/lab/workspaces/x"
     ⟨"https:", "example.com:9999", "example.com", "/lab/workspaces/x", ""⟩
     (fun _ => .ok (some "https://example.com:9999/login?next=abc"))
     "https://example.com:9999/login?next=abc" 25 (by decide) (by decide) rfl (by decide)⟩

/-- C7 counterexample: in a capture flow seeded with the pre-supplied valid
URL `http://localhost:8888/` (plain HTTP, no token, no password, consent
granted), a Back signal raised from the GetDisplayName prompt does NOT exit
the workflow: the recorded previous step is Check Insecure Connections, so
the run re-enters that step, prompts the insecure gate a second time (an
interaction script holding only one gate answer leaves the run waiting),
and finally returns a fresh handle `uuid-1` — not the go-back-to-caller
signal the claim requires. -/
theorem captureWorkflow_seeded_display_name_back_reenters :
    captureRemoteJupyterUrl insecureSeededEnv "http://localhost:8888/" 5 =
      some (.added "uuid-1" "http://localhost:8888/"
        ⟨"http://localhost:8888/", "", "My Server"⟩) ∧
    ¬(captureRemoteJupyterUrl insecureSeededEnv "http://localhost:8888/" 5 =
        some .backToCaller) ∧
    captureRemoteJupyterUrl { insecureSeededEnv with insecureAnswers := [.accept true] }
        "http://localhost:8888/" 5 = none := by
  decide

/-- C7 amended: in a flow seeded with a pre-supplied valid URL, a Back
signal from the CheckPasswords prompt or from the CheckInsecureConnections
prompt exits the entire workflow, and a Back from the GetDisplayName prompt
exits only when the recorded previous step resolves to GetUrl (no insecure
consent was taken and no password-with-empty-token was required) — when the
connection was insecure, the Back from GetDisplayName re-enters the
insecure-connections step instead (second insecure prompt consumed, run
completes with a fresh handle).  In a flow that was not seeded, the same
Back signal re-enters the recorded previous step — from GetDisplayName the
flow returns to the URL prompt and accepts a new URL. -/
theorem captureWorkflow_back_navigation :
    captureRemoteJupyterUrl
        { insecureSeededEnv with passwordResults := [.error .back], insecureAnswers := [],
                                 verifyResults := [], displayNameInputs := [] }
        "http://localhost:8888/" 5 = some .backToCaller ∧
    captureRemoteJupyterUrl
        { insecureSeededEnv with insecureAnswers := [.back], verifyResults := [],
                                 displayNameInputs := [] }
        "http://localhost:8888/" 5 = some .backToCaller ∧
    captureRemoteJupyterUrl
        { insecureSeededEnv with insecureAnswers := [], verifyResults := [.ok ()],
                                 displayNameInputs := [.error .back] }
        "https://example.com/" 5 = some .backToCaller ∧
    captureRemoteJupyterUrl insecureSeededEnv "http://localhost:8888/" 5 =
      some (.added "uuid-1" "http://localhost:8888/"
        ⟨"http://localhost:8888/", "", "My Server"⟩) ∧
    captureRemoteJupyterUrl
        { insecureSeededEnv with
            urlInputs := [.ok ("https://example.com/", ⟨"https://example.com/", "", "example.com"⟩),
                          .ok ("https://other.com/", ⟨"https://other.com/", "", "other.com"⟩)],
            hubChecks := [false, false],
            passwordResults := [.ok ⟨false⟩, .ok ⟨false⟩],
            insecureAnswers := [],
            verifyResults := [.ok (), .ok ()],
            displayNameInputs := [.error .back, .ok "Second"] }
        "" 5 =
      some (.added "uuid-1" "https://other.com/" ⟨"https://other.com/", "", "Second"⟩) := by
  decide

/-- Helper: the streaming loop yields exactly the non-chat prefix and then
fails with the unknown-function error when it reaches a chat output whose
metadata names a function absent from the handler table. -/
theorem processOutputs_unknown_function (kexec : String → List NotebookCellOutput)
    (handlers : ChatHandlers) (o : NotebookCellOutput) (ci : OutputItem) (md : ChatMetadata)
    (rest : List NotebookCellOutput)
    (hchat : chatItemOf o = some ci)
    (hmd : o.metadata = some (some md))
    (hlookup : handlers.find? (fun h => h.1 == md.function) = none) :
    ∀ (pre : List NotebookCellOutput) (fuel : Nat),
      (∀ x ∈ pre, chatItemOf x = none) →
      processOutputs kexec handlers (pre.length + (fuel + 1)) (pre ++ o :: rest) =
        some (pre, some (.chatFunctionNotFound md.function)) := by
  intro pre
  induction pre with
  | nil =>
    intro fuel _
    simp [processOutputs, hchat, hmd, hlookup]
  | cons x xs ih =>
    intro fuel hpre
    have hx : chatItemOf x = none := hpre x (List.mem_cons_self x xs)
    have hxs : ∀ y ∈ xs, chatItemOf y = none := fun y hy => hpre y (List.mem_cons_of_mem x hy)
    have hlen : (x :: xs).length + (fuel + 1) = (xs.length + (fuel + 1)) + 1 := by
      simp [List.length_cons]
      omega
    rw [hlen, List.cons_append]
    simp only [processOutputs, hx]
    rw [ih fuel hxs]
    rfl

/-- C8: when a streamed output carries the chat mime type and its metadata
names a function absent from the caller-supplied handler table, the whole
`executeCode` request fails with the error naming the missing chat function
(`Chat Function <name> not found`), and only the outputs streamed before
that point were yielded — nothing after it. -/
theorem executeCode_unknown_chat_function_fails (k : KernelConnState)
    (kexec : String → List NotebookCellOutput) (handlers : ChatHandlers) (code : String)
    (pre rest : List NotebookCellOutput) (o : NotebookCellOutput) (ci : OutputItem)
    (md : ChatMetadata) (fuel : Nat)
    (hk1 : k.disposed = false) (hk2 : k.hasSessionKernel = true)
    (hout : kexec code = pre ++ o :: rest)
    (hpre : ∀ x ∈ pre, chatItemOf x = none)
    (hchat : chatItemOf o = some ci)
    (hmd : o.metadata = some (some md))
    (hlookup : handlers.find? (fun h => h.1 == md.function) = none) :
    executeCodeInternal k kexec handlers (pre.length + (fuel + 1)) code =
      some ⟨pre, some (.chatFunctionNotFound md.function), [false]⟩ ∧
    (ExecError.chatFunctionNotFound md.function).message =
      "Chat Function " ++ md.function ++ " not found" := by
  constructor
  · simp only [executeCodeInternal, hk1, hk2, hout, Bool.false_eq_true, if_false]
    rw [processOutputs_unknown_function kexec handlers o ci md rest hchat hmd hlookup pre fuel
      hpre]
    simp
  · rfl

/-- Witness for C8 at a concrete request: a live kernel streams one plain
output followed by a chat output naming the unregistered function
`unregistered` against an empty handler table. -/
theorem executeCode_unknown_chat_function_fails_witness :
    executeCodeInternal ⟨false, true, .idle⟩ (fun _ => [plainOutput, chatOutputUnknown]) [] 2 "x" =
      some ⟨[plainOutput], some (.chatFunctionNotFound "unregistered"), [false]⟩ ∧
    (ExecError.chatFunctionNotFound "unregistered").message =
      "Chat Function unregistered not found" := by
  have h := executeCode_unknown_chat_function_fails ⟨false, true, .idle⟩
    (fun _ => [plainOutput, chatOutputUnknown]) [] "x" [plainOutput] []
    chatOutputUnknown ⟨ChatMime, "payload"⟩ ⟨"cb1", "unregistered", true⟩ 0
    rfl rfl rfl (by decide) (by decide) (by decide) rfl
  exact ⟨h.1, by decide⟩

/-- C9: a disposed kernel makes `executeCode` fail immediately with
`Kernel is disposed`, yielding zero outputs and emitting exactly one
execution-telemetry event with `failed = true`; a missing live kernel
session fails with the distinct message `Kernel is dead or terminating`
when the status is dead or terminating, and otherwise with the distinct
connection-not-available message. -/
theorem executeCode_rejects_unusable_kernel (k : KernelConnState)
    (kexec : String → List NotebookCellOutput) (handlers : ChatHandlers)
    (fuel : Nat) (code : String) :
    (k.disposed = true →
      executeCodeInternal k kexec handlers fuel code =
        some ⟨[], some .kernelDisposed, [true]⟩) ∧
    (k.disposed = false → k.hasSessionKernel = false →
      (k.status = .dead ∨ k.status = .terminating →
        executeCodeInternal k kexec handlers fuel code =
          some ⟨[], some .kernelDeadOrTerminating, [true]⟩) ∧
      (¬(k.status = .dead ∨ k.status = .terminating) →
        executeCodeInternal k kexec handlers fuel code =
          some ⟨[], some .connectionNotAvailable, [true]⟩)) ∧
    ExecError.message .kernelDisposed = "Kernel is disposed" ∧
    ExecError.message .kernelDeadOrTerminating = "Kernel is dead or terminating" ∧
    ¬ExecError.message .kernelDeadOrTerminating = ExecError.message .kernelDisposed ∧
    ¬ExecError.message .connectionNotAvailable = ExecError.message .kernelDisposed ∧
    ¬ExecError.message .connectionNotAvailable = ExecError.message .kernelDeadOrTerminating := by
  refine ⟨?_, ?_, by decide, by decide, by decide, by decide, by decide⟩
  · intro h
    simp [executeCodeInternal, h]
  · intro h1 h2
    constructor
    · intro h3
      simp [executeCodeInternal, h1, h2, h3]
    · intro h3
      simp [executeCodeInternal, h1, h2, h3]

/-- Witness for C9 at concrete kernels: disposed; dead without a session;
busy without a session. -/
theorem executeCode_rejects_unusable_kernel_witness :
    executeCodeInternal ⟨true, true, .idle⟩ (fun _ => []) [] 1 "x" =
      some ⟨[], some .kernelDisposed, [true]⟩ ∧
    executeCodeInternal ⟨false, false, .dead⟩ (fun _ => []) [] 1 "x" =
      some ⟨[], some .kernelDeadOrTerminating, [true]⟩ ∧
    executeCodeInternal ⟨false, false, .busy⟩ (fun _ => []) [] 1 "x" =
      some ⟨[], some .connectionNotAvailable, [true]⟩ :=
  ⟨(executeCode_rejects_unusable_kernel ⟨true, true, .idle⟩ (fun _ => []) [] 1 "x").1 rfl,
   ((executeCode_rejects_unusable_kernel ⟨false, false, .dead⟩ (fun _ => []) [] 1 "x").2.1
      rfl rfl).1 (Or.inl rfl),
   ((executeCode_rejects_unusable_kernel ⟨false, false, .busy⟩ (fun _ => []) [] 1 "x").2.1
      rfl rfl).2 (by decide)⟩

/-- C10: for a chat-mime output whose metadata object lacks the `'metadata'`
key (or is absent altogether), `handleChatOutput` reads the record without a
definedness check and the `metadata.function` access is performed on an
undefined value: the embedding is total only by modelling that access as the
runtime failure `typeErrorUndefinedMetadata`, which is distinct from every
protocol-level unknown-function error. -/
theorem handleChatOutput_missing_metadata_is_runtime_failure
    (kexec : String → List NotebookCellOutput) (handlers : ChatHandlers) (fuel : Nat)
    (o : NotebookCellOutput) (ci : OutputItem) (rest : List NotebookCellOutput)
    (hchat : chatItemOf o = some ci)
    (hmd : o.metadata = none ∨ o.metadata = some none) :
    processOutputs kexec handlers (fuel + 1) (o :: rest) =
      some ([], some .typeErrorUndefinedMetadata) ∧
    ∀ name, ¬(ExecError.typeErrorUndefinedMetadata = .chatFunctionNotFound name) := by
  constructor
  · rcases hmd with h | h <;> simp [processOutputs, hchat, h]
  · intro name h
    cases h

/-- Witness for C10 at a concrete chat output whose metadata object lacks
the `'metadata'` key. -/
theorem handleChatOutput_missing_metadata_witness :
    processOutputs (fun _ => []) [] 1 [chatOutputNoMetadata] =
      some ([], some .typeErrorUndefinedMetadata) ∧
    ¬(ExecError.typeErrorUndefinedMetadata = .chatFunctionNotFound "unregistered") :=
  ⟨(handleChatOutput_missing_metadata_is_runtime_failure (fun _ => []) [] 0
      chatOutputNoMetadata ⟨ChatMime, "payload"⟩ [] (by decide) (Or.inr (by decide))).1,
   (handleChatOutput_missing_metadata_is_runtime_failure (fun _ => []) [] 0
      chatOutputNoMetadata ⟨ChatMime, "payload"⟩ [] (by decide) (Or.inr (by decide))).2
     "unregistered"⟩
